import Mathlib

/-!
Verification of `degrees.py`, a script that compares differential gene
expression across species by mapping each experiment's genes onto shared
ortholog groups and classifying cross-experiment concordance.

Modelling conventions: Python floats are rationals (`ℚ`); a whitespace
delimited text cell is an inductive type recording how `float()` treats
it; Python dicts are insertion-ordered association lists; numpy/pandas
boolean reductions over possibly-missing values use `Option ℚ` with the
pandas rule that any comparison against NaN is `False`; a raised Python
exception is `Except.error` with a message naming the exception.
-/

namespace Degrees

/-- A whitespace-delimited text cell as Python's `float()` sees it:
`num q` is a cell that parses to the finite value `q`; `na` is the
literal string "NA" (which `float()` rejects); `other s` is any other
string that `float()` rejects. -/
inductive Cell
  | num (q : ℚ)
  | na
  | other (s : String)
deriving DecidableEq, Repr

/-- Python `float(cell)`: succeeds exactly on numeric cells. -/
def parseFloat : Cell → Option ℚ
  | .num q => some q
  | .na => none
  | .other _ => none

/-- One translated row, `degdic[orthodic[cols[0]]] = padj, logfc, bmean`
(degrees.py line 211). -/
structure Record where
  padj : ℚ
  logfc : ℚ
  basemean : ℚ
deriving DecidableEq, Repr

/-- The adjusted p-value fallback chain of `translate_to_orthologs`
(degrees.py lines 192-200): try `float(cols[6])`; on failure, if
`cols[5]` is the literal "NA" use 1, else try `float(cols[5])` (a second
failure here is an uncaught `ValueError`) and use 0.05 when that value
is below 0.05, otherwise 1. -/
def computePadj (padjCell pvalCell : Cell) : Except String ℚ :=
  match parseFloat padjCell with
  | some q => .ok q
  | none =>
    match pvalCell with
    | .na => .ok 1
    | c =>
      match parseFloat c with
      | some q => .ok (if q < mkRat 1 20 then mkRat 1 20 else 1)
      | none => .error "ValueError"

/-- `float(cols[2])` with fallback 0 (degrees.py lines 201-204). -/
def computeLogfc (c : Cell) : ℚ := (parseFloat c).getD 0

/-- `float(cols[1])` with fallback 0 (degrees.py lines 206-209). -/
def computeBmean (c : Cell) : ℚ := (parseFloat c).getD 0

/-- One whitespace-split line of a DESeq2 experiment file, keeping the
fields `translate_to_orthologs` reads: the column count, `cols[0]`
(gene id), `cols[1]` (mean expression), `cols[2]` (log2 fold change),
`cols[5]` (raw p-value) and `cols[6]` (adjusted p-value). -/
structure ExpLine where
  ncols : ℕ
  gene : String
  basemean : Cell
  logfc : Cell
  pval : Cell
  padj : Cell
deriving DecidableEq, Repr

/-- Parse the numeric fields of one kept row (degrees.py lines 192-211). -/
def mkRecord (l : ExpLine) : Except String Record :=
  match computePadj l.padj l.pval with
  | .ok p => .ok ⟨p, computeLogfc l.logfc, computeBmean l.basemean⟩
  | .error e => .error e

/-- Python dict lookup `d[k]` on an insertion-ordered association list. -/
def getAssoc {β : Type} (d : List (String × β)) (k : String) : Option β :=
  (d.find? (fun p => p.1 == k)).map Prod.snd

/-- Python dict assignment `d[k] = v`: overwrite the value in place when
the key exists, append a new entry otherwise. -/
def updateAssoc {β : Type} (d : List (String × β)) (k : String) (v : β) :
    List (String × β) :=
  if d.any (fun p => p.1 == k) then d.map (fun p => if p.1 == k then (k, v) else p)
  else d ++ [(k, v)]

/-- The row loop of `translate_to_orthologs` (degrees.py lines 186-212):
rows with exactly 7 columns, not the `baseMean` header, and whose gene
id is a key of `orthodic` are parsed; the record is stored under the
gene's ortholog group, overwriting any record stored by an earlier gene
of the same group. -/
def translateLines (orthodic : List (String × String)) (lines : List ExpLine) :
    Except String (List (String × Record)) :=
  lines.foldlM
    (fun degdic l =>
      if l.ncols = 7 ∧ l.gene ≠ "baseMean" then
        match getAssoc orthodic l.gene with
        | some o =>
          match mkRecord l with
          | .ok r => .ok (updateAssoc degdic o r)
          | .error e => .error e
        | none => .ok degdic
      else .ok degdic)
    []

/-- Sign calibration (degrees.py lines 218-219): when a calibration
group is given, look its row up (a missing row is a pandas `KeyError`)
and, if its fold change is negative, negate the whole `logfc` column. -/
def applyCalibration (calibrate : Option String) (d : List (String × Record)) :
    Except String (List (String × Record)) :=
  match calibrate with
  | none => .ok d
  | some c =>
    match getAssoc d c with
    | none => .error "KeyError"
    | some r =>
      .ok (if r.logfc < 0 then d.map (fun p => (p.1, { p.2 with logfc := -p.2.logfc })) else d)

/-- pandas `indexed_df.drop_duplicates(keep=False)` (degrees.py line 222):
drop every row whose column values `(padj, logfc, basemean)` coincide
with those of some other row; the index (the group id) takes no part in
the comparison. -/
def dropValueDuplicates (d : List (String × Record)) : List (String × Record) :=
  d.filter (fun p => (d.filter (fun q => decide (q.2 = p.2))).length = 1)

/-- `translate_to_orthologs(degfile, orthodic, calibrate, duplicates)`
(degrees.py lines 180-224): translate the kept rows, apply calibration,
then, when `duplicates` is set, apply the pandas value-based
de-duplication. -/
def translate_to_orthologs (lines : List ExpLine) (orthodic : List (String × String))
    (calibrate : Option String) (duplicates : Bool) :
    Except String (List (String × Record)) :=
  match translateLines orthodic lines with
  | .error e => .error e
  | .ok d =>
    match applyCalibration calibrate d with
    | .error e => .error e
    | .ok d2 => .ok (if duplicates then dropValueDuplicates d2 else d2)

/-! ## fetch_orthologs (degrees.py lines 131-178) -/

/-- `g.split('|')[0]`: the text before the first pipe (the whole string
when no pipe is present). -/
def speciesOf (g : String) : String := (g.splitOn "|").headD ""

/-- `Counter` lookup: an absent key counts as 0. -/
def getCount (counts : List (String × ℕ)) (k : String) : ℕ :=
  ((counts.find? (fun p => p.1 == k)).map Prod.snd).getD 0

/-- One iteration of the species-counting loop (degrees.py lines
156-163).  `for g in cols` runs over all columns, the group id in
`cols[0]` included.  When `duplicates` is set the count is coerced to 1;
otherwise the code evaluates `spec in exclude`, which on `exclude =
None` is the Python `TypeError: argument of type 'NoneType' is not
iterable`; members of the exclude list are coerced to 1 and all other
species are counted. -/
def countsStep (duplicates : Bool) (exclude : Option (List String))
    (counts : List (String × ℕ)) (g : String) : Except String (List (String × ℕ)) :=
  let spec := speciesOf g
  if duplicates then .ok (updateAssoc counts spec 1)
  else
    match exclude with
    | none => .error "TypeError"
    | some excl =>
      if spec ∈ excl then .ok (updateAssoc counts spec 1)
      else .ok (updateAssoc counts spec (getCount counts spec + 1))

/-- The species counter for one line (degrees.py lines 155-163). -/
def lineCounts (duplicates : Bool) (exclude : Option (List String))
    (cols : List String) : Except String (List (String × ℕ)) :=
  cols.foldlM (countsStep duplicates exclude) []

/-- The inclusion test (degrees.py lines 164-173): the whitelist is
`mustcontain` when given and otherwise the species seen on the line;
the group qualifies when every counted species occurs at most once and
every whitelist species was counted. -/
def groupIncluded (counts : List (String × ℕ)) (mustcontain : Option (List String)) : Bool :=
  let whitelist := match mustcontain with
    | some wl => wl
    | none => counts.map Prod.fst
  counts.all (fun p => p.2 ≤ 1) && whitelist.all (fun wl => counts.any (fun p => p.1 == wl))

/-- Processing of one split line of the orthology file (degrees.py
lines 151-175): nonempty lines record `ortho_idx[cols[0]] = cols[1:]`
unconditionally; when the line passes the inclusion test, every column
(the group id included) is mapped to `cols[0]` in `ortho_dic`. -/
def fetchStep (mustcontain exclude : Option (List String)) (duplicates : Bool)
    (acc : List (String × String) × List (String × List String)) (cols : List String) :
    Except String (List (String × String) × List (String × List String)) :=
  match cols with
  | [] => .ok acc
  | c0 :: rest =>
    let idx := updateAssoc acc.2 c0 rest
    match lineCounts duplicates exclude (c0 :: rest) with
    | .error e => .error e
    | .ok counts =>
      if groupIncluded counts mustcontain then
        .ok ((c0 :: rest).foldl (fun d g => updateAssoc d g c0) acc.1, idx)
      else .ok (acc.1, idx)

/-- `fetch_orthologs(orthofile, mustcontain, exclude, duplicates)`
(degrees.py lines 131-178), over the whitespace-split lines of the
file.  Returns the pair `(ortho_dic, ortho_idx)`. -/
def fetch_orthologs (fileLines : List (List String))
    (mustcontain exclude : Option (List String)) (duplicates : Bool) :
    Except String (List (String × String) × List (String × List String)) :=
  fileLines.foldlM (fetchStep mustcontain exclude duplicates) ([], [])

/-! ## global_comparisons (degrees.py lines 810-941)

A row of the global dataframe holds, per experiment, an adjusted
p-value column and a log2 fold change column, either of which may be
missing (`None` models pandas NaN).  pandas semantics: a comparison
against NaN is `False`, `isnull()` is `True` exactly on NaN. -/

/-- One experiment's cells within one row of the global dataframe. -/
structure GCell where
  padj : Option ℚ
  logfc : Option ℚ
deriving DecidableEq, Repr

/-- pandas `x <= c` on a possibly missing value. -/
def optLe (x : Option ℚ) (c : ℚ) : Bool :=
  match x with
  | some v => decide (v ≤ c)
  | none => false

/-- pandas `x < c` on a possibly missing value. -/
def optLt (x : Option ℚ) (c : ℚ) : Bool :=
  match x with
  | some v => decide (v < c)
  | none => false

/-- pandas `x > c` on a possibly missing value. -/
def optGt (x : Option ℚ) (c : ℚ) : Bool :=
  match x with
  | some v => decide (c < v)
  | none => false

/-- pandas `x >= c` on a possibly missing value. -/
def optGe (x : Option ℚ) (c : ℚ) : Bool :=
  match x with
  | some v => decide (c ≤ v)
  | none => false

/-- Per-experiment conjunct of the all-species significance reduction
(degrees.py lines 818-822): `(padj <= 0.05) | padj.isnull()`. -/
def sigAllCond (c : GCell) : Bool := optLe c.padj (mkRat 1 20) || c.padj.isNone

/-- Per-experiment disjunct of the at-least-one significance reduction
(degrees.py lines 839-843): `padj <= 0.05`. -/
def sigAloCond (c : GCell) : Bool := optLe c.padj (mkRat 1 20)

/-- Per-experiment conjunct of the all-species negative reduction
(degrees.py lines 825-829): `(logfc < 0) | logfc.isnull()`. -/
def negAllCond (c : GCell) : Bool := optLt c.logfc 0 || c.logfc.isNone

/-- Per-experiment disjunct of the at-least-one negative reduction
(degrees.py lines 846-850): `logfc < 0`. -/
def negAloCond (c : GCell) : Bool := optLt c.logfc 0

/-- Per-experiment conjunct of the all-species positive reduction
(degrees.py lines 832-836): `(logfc > 0) | logfc.isnull()`. -/
def posAllCond (c : GCell) : Bool := optGt c.logfc 0 || c.logfc.isNone

/-- Per-experiment disjunct of the at-least-one positive reduction
(degrees.py lines 853-857): `logfc > 0`. -/
def posAloCond (c : GCell) : Bool := optGt c.logfc 0

/-- Per-experiment conjunct of the all-species big-change reduction
(degrees.py lines 872-879):
`(logfc >= t) | (logfc <= -t) | logfc.isnull()`. -/
def bigAllCond (t : ℚ) (c : GCell) : Bool :=
  optGe c.logfc t || optLe c.logfc (-t) || c.logfc.isNone

/-- Per-experiment disjunct of the at-least-one big-change reduction
(degrees.py lines 863-869): `(logfc >= t) | (logfc <= -t)`. -/
def bigAloCond (t : ℚ) (c : GCell) : Bool := optGe c.logfc t || optLe c.logfc (-t)

/-- `sig` (degrees.py lines 818-822): the AND-fold of `sigAllCond` over
the experiments of a row. -/
def sigAll (row : List GCell) : Bool := row.all sigAllCond

/-- `sig_alo` (degrees.py lines 839-843): the OR-fold of `sigAloCond`. -/
def sigAlo (row : List GCell) : Bool := row.any sigAloCond

/-- `neg` (degrees.py lines 825-829). -/
def negAll (row : List GCell) : Bool := row.all negAllCond

/-- `neg_alo` (degrees.py lines 846-850). -/
def negAlo (row : List GCell) : Bool := row.any negAloCond

/-- `pos` (degrees.py lines 832-836). -/
def posAll (row : List GCell) : Bool := row.all posAllCond

/-- `pos_alo` (degrees.py lines 853-857). -/
def posAlo (row : List GCell) : Bool := row.any posAloCond

/-- `bigchange` (degrees.py lines 872-879). -/
def bigAll (t : ℚ) (row : List GCell) : Bool := row.all (bigAllCond t)

/-- `bigchange_alo` (degrees.py lines 863-869). -/
def bigAlo (t : ℚ) (row : List GCell) : Bool := row.any (bigAloCond t)

/-- `concordant = pos | neg` (degrees.py line 860). -/
def concordantAll (row : List GCell) : Bool := posAll row || negAll row

/-! ## enrichment reporting (degrees.py lines 487-514) -/

/-- One `Fisher_square` as built at degrees.py lines 493-499: the four
contingency counts, the domain id, and the p-value filled in by the
external `fisher_test` capability.  `NwG` and `NwoG` are integers
because they are computed by subtraction. -/
structure FisherSquare where
  TwG : ℕ
  TwoG : ℤ
  NwG : ℤ
  NwoG : ℤ
  id : String
  p : ℚ
deriving DecidableEq, Repr

/-- How the reporting loop classifies a reported domain. -/
inductive ReportKind
  | fdrReported
  | fdrIndeterminate
deriving DecidableEq, Repr

/-- The reporting decision of `enrichment` (degrees.py lines 507-514),
with the `p_to_q` output modelled as a partial map from p-values to
corrected values: a domain whose p-value is in the map is reported when
its corrected value is at most 0.05 and `TwG > 1`; a domain whose
p-value is absent from the map is reported, flagged FDR-indeterminate,
when its raw p-value is at most 0.05 and `TwG > 1`; `none` means the
domain is not reported at all. -/
def reportOf (fdr : ℚ → Option ℚ) (s : FisherSquare) : Option ReportKind :=
  match fdr s.p with
  | some q => if q ≤ mkRat 1 20 ∧ 1 < s.TwG then some .fdrReported else none
  | none => if s.p ≤ mkRat 1 20 ∧ 1 < s.TwG then some .fdrIndeterminate else none

/-! ## the `__main__` control flow (degrees.py lines 945-1035) -/

/-- The externally observable stages of a run that the error-handling
claims speak about. -/
inductive MainEvent
  | fileCheckExit
  | buildIndex
  | analyses
  | insufficientExit
deriving DecidableEq, Repr

/-- The order of events in `__main__` (degrees.py lines 952-1035), as a
function of which experiment files exist: the file-existence loop
(lines 952-959) exits before anything else when some file is missing;
otherwise `fetch_orthologs` builds the index (line 976); only then is
`len(args.experiments) > 1` tested (line 984), exiting with
"Insufficient output files were provided" (lines 1033-1035) when it
fails and running the analyses otherwise. -/
def mainTrace (filesExist : List Bool) : List MainEvent :=
  if filesExist.all id then
    MainEvent.buildIndex ::
      (if 1 < filesExist.length then [MainEvent.analyses] else [MainEvent.insufficientExit])
  else [MainEvent.fileCheckExit]

/-! ## the bitwise fold-change column (degrees.py lines 619-620)

The `logfc` columns of the joined dataframe are numpy `float64`
columns, so `x['logfc']/abs(x['logfc'])` is numpy scalar division: with
the default numpy error state, division by zero emits a
`RuntimeWarning` and evaluates to NaN (0/0) or a signed infinity; no
exception is raised. -/

/-- A numpy `float64` value as produced by dividing finite column
values: a finite rational, NaN, or a signed infinity. -/
inductive NpVal
  | num (q : ℚ)
  | nan
  | inf
  | ninf
deriving DecidableEq, Repr

/-- numpy `float64` division of two finite values: `0/0` is NaN and
`x/0` for nonzero `x` is a signed infinity (with a `RuntimeWarning`,
not an exception); otherwise exact division. -/
def npDiv (x y : ℚ) : NpVal :=
  if y = 0 then (if x = 0 then .nan else if 0 < x then .inf else .ninf)
  else .num (x / y)

/-- `df3.apply(lambda x: x['logfc']/abs(x['logfc']), axis=1)` for one
row (degrees.py lines 619-620). -/
def bitfc (logfc : ℚ) : NpVal := npDiv logfc |logfc|

/-! ## pairwise_comparisons (degrees.py lines 530-808)

The pairwise loop is modelled for runs without a calibration group
(`calibrate=None`) and with the default `drop_nas=True`.  Each
experiment file is represented by its already-translated table (the
calls `translate_to_orthologs(exp, orthodic)` inside the loop are
deterministic, so translating once upstream is equivalent); an
experiment is a pair of its file path and its table, and the loop's
`exp1 == exp2` test compares the file paths.  Quantities that cannot
affect control flow or the returned set (the positive/negative ratios
of lines 581-587, the correlations, the venn and chart output) are not
modelled; the divisions that can raise `ZeroDivisionError` are kept in
source order. -/

/-- A translated experiment table. -/
abbrev Tbl := List (String × Record)

/-- The index (set of group ids) of a translated table. -/
def tkeys (t : Tbl) : Finset String := (t.map Prod.fst).toFinset

/-- The index of `df1.join(df2, how='left', lsuffix="1st").dropna()`
(degrees.py lines 590-592): the group ids present in both tables. -/
def joinKeys (t1 t2 : Tbl) : Finset String := tkeys t1 ∩ tkeys t2

/-- `padj <= 0.05` for a group id of a table. -/
def isSig (t : Tbl) (k : String) : Bool :=
  match getAssoc t k with
  | some r => decide (r.padj ≤ mkRat 1 20)
  | none => false

/-- `padj > 0.05` for a group id of a table. -/
def isNsig (t : Tbl) (k : String) : Bool :=
  match getAssoc t k with
  | some r => decide (mkRat 1 20 < r.padj)
  | none => false

/-- `logfc > 0` for a group id of a table. -/
def isPos (t : Tbl) (k : String) : Bool :=
  match getAssoc t k with
  | some r => decide (0 < r.logfc)
  | none => false

/-- `logfc < 0` for a group id of a table. -/
def isNeg (t : Tbl) (k : String) : Bool :=
  match getAssoc t k with
  | some r => decide (r.logfc < 0)
  | none => false

/-- `df_sp`: significant and positive (degrees.py lines 632-635). -/
def sigPosOf (t : Tbl) (keys : Finset String) : Finset String :=
  keys.filter (fun k => (isSig t k && isPos t k) = true)

/-- `df_sn`: significant and negative (degrees.py lines 632-635). -/
def sigNegOf (t : Tbl) (keys : Finset String) : Finset String :=
  keys.filter (fun k => (isSig t k && isNeg t k) = true)

/-- `df_nsp`: non-significant and positive (degrees.py lines 637-640). -/
def nsigPosOf (t : Tbl) (keys : Finset String) : Finset String :=
  keys.filter (fun k => (isNsig t k && isPos t k) = true)

/-- `df_nsn`: non-significant and negative (degrees.py lines 637-640). -/
def nsigNegOf (t : Tbl) (keys : Finset String) : Finset String :=
  keys.filter (fun k => (isNsig t k && isNeg t k) = true)

/-- The result of `concordancecounts` (degrees.py lines 242-262). -/
structure CCounts where
  conSig1 : Finset String
  conNsig1 : Finset String
  nconSig1 : Finset String
  nconNsig1 : Finset String
  conSig2 : Finset String
  conNsig2 : Finset String
  nconSig2 : Finset String
  nconNsig2 : Finset String
  bkgdFreq : Option ℚ

/-- `concordancecounts` (degrees.py lines 242-262).  The background
frequency `1.0*bkgd_con/(bkgd_con+bkgd_dis)` is a Python float division
whose zero denominator raises `ZeroDivisionError`; `none` models the
raise. -/
def concordancecounts (d1sp d2sp d1sn d2sn d1nsp d2nsp d1nsn d2nsn : Finset String) :
    CCounts :=
  let bkgdCon := ((d1nsp ∩ d2nsp) ∪ (d1nsn ∩ d2nsn) ∪ (d1sp ∩ d2sp) ∪ (d1sn ∩ d2sn)).card
  let bkgdDis := ((d1nsp ∩ d2nsn) ∪ (d1nsn ∩ d2nsp) ∪ (d1sn ∩ d2sp) ∪ (d1sp ∩ d2sn)).card
  { conSig1 := (d1sp ∩ d2sp) ∪ (d1sn ∩ d2sn)
    conNsig1 := (d1sp ∩ d2nsp) ∪ (d1sn ∩ d2nsn)
    nconSig1 := (d1sp ∩ d2sn) ∪ (d1sn ∩ d2sp)
    nconNsig1 := (d1sp ∩ d2nsn) ∪ (d1sn ∩ d2nsp)
    conSig2 := (d1sp ∩ d2sp) ∪ (d1sn ∩ d2sn)
    conNsig2 := (d1nsp ∩ d2sp) ∪ (d1nsn ∩ d2sn)
    nconSig2 := (d1sp ∩ d2sn) ∪ (d1sn ∩ d2sp)
    nconNsig2 := (d1nsp ∩ d2sn) ∪ (d1nsn ∩ d2sp)
    bkgdFreq :=
      if bkgdCon + bkgdDis = 0 then none
      else some ((bkgdCon : ℚ) / ((bkgdCon : ℚ) + (bkgdDis : ℚ))) }

/-- `num_sig` (degrees.py line 654): joined rows significant (at the
0.05 threshold) in at least one of the two experiments. -/
def numSigOf (t1 t2 : Tbl) : ℕ :=
  ((joinKeys t1 t2).filter (fun k => (isSig t1 k || isSig t2 k) = true)).card

/-- `intersection_ab` (degrees.py line 671):
`1.*len(df1_sp & df2_sp) + len(df1_sn & df2_sn)`, as the underlying
count (the Python value is this count as a float). -/
def interABOf (t1 t2 : Tbl) : ℕ :=
  (sigPosOf t1 (joinKeys t1 t2) ∩ sigPosOf t2 (joinKeys t1 t2)).card +
    (sigNegOf t1 (joinKeys t1 t2) ∩ sigNegOf t2 (joinKeys t1 t2)).card

/-- The `concordancecounts` call of degrees.py line 658, on the eight
sets classified from the joined table. -/
def ccOf (t1 t2 : Tbl) : CCounts :=
  concordancecounts
    (sigPosOf t1 (joinKeys t1 t2)) (sigPosOf t2 (joinKeys t1 t2))
    (sigNegOf t1 (joinKeys t1 t2)) (sigNegOf t2 (joinKeys t1 t2))
    (nsigPosOf t1 (joinKeys t1 t2)) (nsigPosOf t2 (joinKeys t1 t2))
    (nsigNegOf t1 (joinKeys t1 t2)) (nsigNegOf t2 (joinKeys t1 t2))

/-- The row-set of the "significant in at least one" correlation metric
as the code computes it (degrees.py lines 610-613): note the literal
`df3.padj <= 0.5` on the second experiment's column. -/
def onedegKeys (t1 t2 : Tbl) : Finset String :=
  (joinKeys t1 t2).filter (fun k => (optLe ((getAssoc t2 k).map Record.padj) (mkRat 1 2) ||
    optLe ((getAssoc t1 k).map Record.padj) (mkRat 1 20)) = true)

/-- The same row-set as the specification describes it: significant
means adjusted p-value at most 0.05 in either experiment. -/
def onedegKeysSpec (t1 t2 : Tbl) : Finset String :=
  (joinKeys t1 t2).filter (fun k => (optLe ((getAssoc t2 k).map Record.padj) (mkRat 1 20) ||
    optLe ((getAssoc t1 k).map Record.padj) (mkRat 1 20)) = true)

/-- One iteration of the pairwise loop (degrees.py lines 560-711),
reduced to what determines control flow and the accumulated concordant
significant set: the `rel_conc` division by `num_sig` (line 655), the
background-frequency division inside `concordancecounts` (line 658 via
line 258), and the inverse-Jaccard division (line 673) raise
`ZeroDivisionError` in that order when their denominators are zero;
otherwise the pair contributes `concordance_sets[0]` (line 660). -/
def pairStep (t1 t2 : Tbl) : Except String (Finset String) :=
  if numSigOf t1 t2 = 0 then .error "ZeroDivisionError: relative concordance"
  else
    match (ccOf t1 t2).bkgdFreq with
    | none => .error "ZeroDivisionError: background concordance frequency"
    | some _ =>
      if numSigOf t1 t2 = interABOf t1 t2 then
        .error "ZeroDivisionError: inverse Jaccard distance"
      else .ok (ccOf t1 t2).conSig1

/-- The ordered pairs the loop processes (degrees.py lines 560-567):
`itertools.product` of the experiment list with itself, skipping pairs
of equal file paths. -/
def pairsOf (exps : List (String × Tbl)) : List ((String × Tbl) × (String × Tbl)) :=
  (exps.product exps).filter (fun p => decide (p.1.1 ≠ p.2.1))

/-- The accumulation of `concordant_sig_genesets` (degrees.py line 660)
across the loop, stopping at the first raised exception. -/
def collectGenesets : List ((String × Tbl) × (String × Tbl)) →
    Except String (List (Finset String))
  | [] => .ok []
  | p :: rest =>
    match pairStep p.1.2 p.2.2 with
    | .error e => .error e
    | .ok g =>
      match collectGenesets rest with
      | .error e => .error e
      | .ok gs => .ok (g :: gs)

/-- `set.intersection(*concordant_sig_genesets)` (degrees.py line 724):
a `TypeError` on an empty argument list, the fold of intersection
otherwise. -/
def commonToAll (gsets : List (Finset String)) : Except String (Finset String) :=
  match gsets with
  | [] => .error "TypeError"
  | g :: rest => .ok (rest.foldl (fun a b => a ∩ b) g)

/-- `pairwise_comparisons` reduced to its returned value (degrees.py
lines 530-808): run every ordered pair of distinct experiments,
accumulate each pair's concordant significant set, and return
`common_to_all` (lines 723-724, 808). -/
def pairwise_comparisons (exps : List (String × Tbl)) : Except String (Finset String) :=
  match collectGenesets (pairsOf exps) with
  | .error e => .error e
  | .ok gsets => commonToAll gsets

/-- The concordant-significant set of one ordered pair as the
specification states it:
`(sig_pos_A ∩ sig_pos_B) ∪ (sig_neg_A ∩ sig_neg_B)` over the joined
rows. -/
def concordantSigSpec (t1 t2 : Tbl) : Finset String :=
  (sigPosOf t1 (joinKeys t1 t2) ∩ sigPosOf t2 (joinKeys t1 t2)) ∪
    (sigNegOf t1 (joinKeys t1 t2) ∩ sigNegOf t2 (joinKeys t1 t2))

/-! ## concrete inputs used by the witnesses and counterexamples -/

/-- Two experiments: `a` is significant positive in both, `b` is
significant positive in the first and non-significant in the second. -/
def c1TblA : Tbl := [("a", ⟨mkRat 1 100, 1, 5⟩), ("b", ⟨mkRat 1 100, 1, 5⟩)]

/-- Second experiment table for the pairwise example. -/
def c1TblB : Tbl := [("a", ⟨mkRat 1 100, 1, 5⟩), ("b", ⟨mkRat 1 2, 1, 5⟩)]

/-- The experiment list (file path, translated table) for the pairwise
example. -/
def c1Exps : List (String × Tbl) := [("e1", c1TblA), ("e2", c1TblB)]

/-- An ortholog dictionary mapping two genes to the same group. -/
def c2Orthodic : List (String × String) := [("g1", "OG1"), ("g2", "OG1")]

/-- Two experiment rows contributing to the same ortholog group with
distinct `(padj, logfc, basemean)` values. -/
def c2Lines : List ExpLine :=
  [⟨7, "g1", .num 5, .num 1, .num (mkRat 1 100), .num (mkRat 1 100)⟩,
   ⟨7, "g2", .num 6, .num 2, .num (mkRat 1 50), .num (mkRat 1 50)⟩]

/-- A row whose adjusted p-value column is the literal "NA" and whose
raw p-value is 0.01. -/
def c3Line : ExpLine := ⟨7, "gene1", .num 5, .num 1, .num (mkRat 1 100), .na⟩

/-- The record the translator produces for `c3Line`. -/
def c3Rec : Record := ⟨mkRat 1 20, 1, 5⟩

/-- A global-dataframe row: the first experiment's p-value is missing,
the second is significant. -/
def c4Row : List GCell := [⟨none, some 1⟩, ⟨some (mkRat 1 100), some 1⟩]

/-- Two experiments whose joined table holds exactly one ortholog,
significant positive in both, so the significant union equals the
concordant-significant intersection. -/
def c5Exps : List (String × Tbl) :=
  [("e1", [("a", ⟨mkRat 1 100, 1, 5⟩)]), ("e2", [("a", ⟨mkRat 1 100, 1, 5⟩)])]

/-- First experiment of the correlation-filter example: `g` has
adjusted p-value 0.9. -/
def c6TblA : Tbl := [("g", ⟨mkRat 9 10, 1, 5⟩)]

/-- Second experiment of the correlation-filter example: `g` has
adjusted p-value 0.3 — not significant, yet below the literal 0.5. -/
def c6TblB : Tbl := [("g", ⟨mkRat 3 10, 1, 5⟩)]

/-- An FDR map defined exactly at p-value 0.01. -/
def c7Fdr : ℚ → Option ℚ := fun p => if p = mkRat 1 100 then some (mkRat 1 100) else none

/-- A domain carried by exactly one target gene whose corrected value
0.01 is below the alpha. -/
def c7SquareOne : FisherSquare := ⟨1, 2, 3, 94, "PF00001", mkRat 1 100⟩

/-- A domain carried by three target genes whose corrected value is not
in the FDR map and whose raw p-value is 0.2. -/
def c7SquareInd : FisherSquare := ⟨3, 0, 7, 90, "PF00002", mkRat 1 5⟩

/-- An orthology file with a single well-formed line. -/
def c9Lines : List (List String) := [["OG1", "AAAA|g1"]]

deriving instance DecidableEq for Except

/-! ## Theorems -/

/-- C2: with `collapse_duplicates` set, a group to which two input rows
contributed is NOT dropped: the dict assignment already collapsed the
two rows (the later overwrote the earlier), and
`drop_duplicates(keep=False)` then compares `(padj, logfc, basemean)`
values only, so `OG1` survives carrying the second row's values.  The
same table results with the flag unset, confirming the overwrite half
of the claim and refuting the drop half. -/
theorem claim2_collapse_duplicates_keeps_multirow_group :
    translate_to_orthologs c2Lines c2Orthodic none true =
        Except.ok [("OG1", ⟨mkRat 1 50, 2, 6⟩)] ∧
      translate_to_orthologs c2Lines c2Orthodic none false =
        Except.ok [("OG1", ⟨mkRat 1 50, 2, 6⟩)] := by
  decide

/-- C5: on a pair whose significant union equals the
concordant-significant intersection, `union_ab / (union_ab -
intersection_ab)` is a Python float division by zero: the loop raises
`ZeroDivisionError` and the batch aborts, rather than yielding NaN and
continuing. -/
theorem claim5_inverse_jaccard_raises :
    pairwise_comparisons c5Exps =
      Except.error "ZeroDivisionError: inverse Jaccard distance" := by
  decide

/-- C6: the correlation metric over "significant in at least one
experiment" filters the second experiment's column with the literal 0.5
(degrees.py line 610), not 0.05: a joined row with p-values 0.9 and 0.3
is included by the code though it is significant in neither experiment,
so the row-set differs from the one the specification describes. -/
theorem claim6_onedeg_threshold_point_five :
    onedegKeys c6TblA c6TblB = {"g"} ∧ onedegKeysSpec c6TblA c6TblB = ∅ ∧
      (getAssoc c6TblB "g").map Record.padj = some (mkRat 3 10) := by
  decide

/-- C7 counterexample: a domain carried by exactly one target gene is
not reported even though its corrected value 0.01 is below the alpha
(both reporting branches require `TwG > 1`), and a domain absent from
the FDR map is not reported when its raw p-value exceeds 0.05 — both
contradicting the claim that such domains are always reported. -/
theorem claim7_counterexample :
    c7SquareOne.TwG = 1 ∧ c7Fdr c7SquareOne.p = some (mkRat 1 100) ∧
      mkRat 1 100 ≤ mkRat 1 20 ∧ reportOf c7Fdr c7SquareOne = none ∧
      c7Fdr c7SquareInd.p = none ∧ 1 < c7SquareInd.TwG ∧
      reportOf c7Fdr c7SquareInd = none := by
  decide

/-- C8 counterexample: a run with exactly one experiment file, the file
existing, builds the ortholog index before the fatal "insufficient
files" exit — the fewer-than-2 check (degrees.py line 984) runs only
after `fetch_orthologs` (line 976), refuting "before any processing
begins". -/
theorem claim8_counterexample :
    mainTrace [true] = [MainEvent.buildIndex, MainEvent.insufficientExit] ∧
      MainEvent.buildIndex ∈ mainTrace [true] ∧ List.length [true] < 2 := by
  decide

/-- C9: building the index with `exclude = None` (the CLI default when
`-x` is not given) and `duplicates = False` raises `TypeError` on the
first member of the first nonempty line, because line 160 evaluates
`spec in exclude` on `None`; it does not treat the ignorable set as
empty. -/
theorem claim9_none_exclude_raises :
    fetch_orthologs c9Lines none none false = Except.error "TypeError" := by
  decide

/-- C10 counterexample: a joined row whose fold change is exactly 0
(the translator's default when column 2 fails to parse) gets the NaN
sign value under numpy float64 division — the computation does not
raise and rows with nonzero fold change still get their signs. -/
theorem claim10_counterexample :
    computeLogfc Cell.na = 0 ∧ bitfc 0 = NpVal.nan ∧
      bitfc 1 = NpVal.num 1 ∧ bitfc (-2) = NpVal.num (-1) := by
  refine ⟨rfl, ?_, ?_, ?_⟩ <;> norm_num [bitfc, npDiv]

/-- C3: for every successfully translated row, the adjusted p-value is
column 6's value when that column parses as a float; otherwise it is 1
when column 5 is the literal "NA", 0.05 when column 5 parses below
0.05, and 1 when column 5 parses at or above 0.05. -/
theorem claim3_padj_fallback (l : ExpLine) (r : Record)
    (hok : mkRecord l = Except.ok r) :
    (∀ q, parseFloat l.padj = some q → r.padj = q) ∧
    (parseFloat l.padj = none →
      (l.pval = Cell.na → r.padj = 1) ∧
      (∀ q, l.pval = Cell.num q → q < mkRat 1 20 → r.padj = mkRat 1 20) ∧
      (∀ q, l.pval = Cell.num q → ¬ q < mkRat 1 20 → r.padj = 1)) := by
  obtain ⟨n, g, bm, lf, pv, pa⟩ := l
  cases pa with
  | num q0 =>
    simp only [mkRecord, computePadj, parseFloat, Except.ok.injEq] at hok
    subst hok
    refine ⟨?_, ?_⟩
    · intro q hq
      simp only [parseFloat, Option.some.injEq] at hq
      exact hq
    · intro hnone
      simp [parseFloat] at hnone
  | na =>
    refine ⟨?_, ?_⟩
    · intro q hq
      simp [parseFloat] at hq
    · intro _
      cases pv with
      | num q1 =>
        simp only [mkRecord, computePadj, parseFloat, Except.ok.injEq] at hok
        subst hok
        refine ⟨?_, ?_, ?_⟩
        · intro hna; cases hna
        · intro q hq hlt
          simp only [Cell.num.injEq] at hq
          subst hq
          simp [if_pos hlt]
        · intro q hq hge
          simp only [Cell.num.injEq] at hq
          subst hq
          simp [if_neg hge]
      | na =>
        simp only [mkRecord, computePadj, parseFloat, Except.ok.injEq] at hok
        subst hok
        refine ⟨fun _ => rfl, ?_, ?_⟩
        · intro q hq; cases hq
        · intro q hq; cases hq
      | other s1 =>
        simp [mkRecord, computePadj, parseFloat] at hok
  | other s0 =>
    refine ⟨?_, ?_⟩
    · intro q hq
      simp [parseFloat] at hq
    · intro _
      cases pv with
      | num q1 =>
        simp only [mkRecord, computePadj, parseFloat, Except.ok.injEq] at hok
        subst hok
        refine ⟨?_, ?_, ?_⟩
        · intro hna; cases hna
        · intro q hq hlt
          simp only [Cell.num.injEq] at hq
          subst hq
          simp [if_pos hlt]
        · intro q hq hge
          simp only [Cell.num.injEq] at hq
          subst hq
          simp [if_neg hge]
      | na =>
        simp only [mkRecord, computePadj, parseFloat, Except.ok.injEq] at hok
        subst hok
        refine ⟨fun _ => rfl, ?_, ?_⟩
        · intro q hq; cases hq
        · intro q hq; cases hq
      | other s1 =>
        simp [mkRecord, computePadj, parseFloat] at hok

/-- C3 witness: a concrete row with "NA" in column 6 and 0.01 in
column 5 translates with adjusted p-value 0.05. -/
theorem claim3_witness : c3Rec.padj = mkRat 1 20 :=
  ((claim3_padj_fallback c3Line c3Rec (by decide)).2 rfl).2.1
    (mkRat 1 100) rfl (by decide)

/-- C4: in the global classification, a missing value satisfies every
per-experiment conjunct of the AND-reductions (significant, positive,
negative, big-change) while contributing no evidence to any
OR-reduction disjunct; consequently a row satisfying a predicate in
every experiment where its value is present satisfies the whole
AND-reduction. -/
theorem claim4_global_null_semantics (row : List GCell) (t : ℚ) :
    (∀ c ∈ row, c.padj = none → sigAllCond c = true ∧ sigAloCond c = false) ∧
    (∀ c ∈ row, c.logfc = none →
      posAllCond c = true ∧ negAllCond c = true ∧ bigAllCond t c = true ∧
        posAloCond c = false ∧ negAloCond c = false ∧ bigAloCond t c = false) ∧
    ((∀ c ∈ row, c.padj ≠ none → sigAloCond c = true) → sigAll row = true) ∧
    ((∀ c ∈ row, c.logfc ≠ none → posAloCond c = true) → posAll row = true) ∧
    ((∀ c ∈ row, c.logfc ≠ none → negAloCond c = true) → negAll row = true) ∧
    ((∀ c ∈ row, c.logfc ≠ none → bigAloCond t c = true) → bigAll t row = true) := by
  refine ⟨?_, ?_, ?_, ?_, ?_, ?_⟩
  · intro c _ hc
    simp [sigAllCond, sigAloCond, optLe, hc]
  · intro c _ hc
    simp [posAllCond, negAllCond, bigAllCond, posAloCond, negAloCond, bigAloCond,
      optGt, optLt, optGe, optLe, hc]
  · intro h
    unfold sigAll
    rw [List.all_eq_true]
    intro c hc
    rcases hp : c.padj with _ | v
    · simp [sigAllCond, hp]
    · have h2 : sigAloCond c = true := h c hc (by rw [hp]; simp)
      simp only [sigAllCond, Bool.or_eq_true]
      exact Or.inl h2
  · intro h
    unfold posAll
    rw [List.all_eq_true]
    intro c hc
    rcases hp : c.logfc with _ | v
    · simp [posAllCond, hp]
    · have h2 : posAloCond c = true := h c hc (by rw [hp]; simp)
      simp only [posAllCond, Bool.or_eq_true]
      exact Or.inl h2
  · intro h
    unfold negAll
    rw [List.all_eq_true]
    intro c hc
    rcases hp : c.logfc with _ | v
    · simp [negAllCond, hp]
    · have h2 : negAloCond c = true := h c hc (by rw [hp]; simp)
      simp only [negAllCond, Bool.or_eq_true]
      exact Or.inl h2
  · intro h
    unfold bigAll
    rw [List.all_eq_true]
    intro c hc
    rcases hp : c.logfc with _ | v
    · simp [bigAllCond, hp]
    · have h2 : bigAloCond t c = true := h c hc (by rw [hp]; simp)
      simp only [bigAllCond, Bool.or_eq_true]
      rcases Bool.or_eq_true_iff.mp h2 with h3 | h3
      · exact Or.inl (Or.inl h3)
      · exact Or.inl (Or.inr h3)

/-- C4 witness: a row whose first experiment has a missing p-value and
whose second is significant counts as significant under the
all-experiments reduction. -/
theorem claim4_witness : sigAll c4Row = true :=
  (claim4_global_null_semantics c4Row 1).2.2.1 (by decide)

/-- C7 amended: a domain is reported through the FDR branch exactly
when its p-value is in the correction map with corrected value at most
0.05 and more than one target gene carries the domain, and through the
FDR-indeterminate branch exactly when its p-value is absent from the
map, its raw p-value is at most 0.05, and more than one target gene
carries the domain; every other domain — in particular every domain
carried by exactly one target gene — is not reported at all. -/
theorem claim7_reporting_rule (fdr : ℚ → Option ℚ) (s : FisherSquare) :
    (reportOf fdr s = some ReportKind.fdrReported ↔
      ∃ q, fdr s.p = some q ∧ q ≤ mkRat 1 20 ∧ 1 < s.TwG) ∧
    (reportOf fdr s = some ReportKind.fdrIndeterminate ↔
      fdr s.p = none ∧ s.p ≤ mkRat 1 20 ∧ 1 < s.TwG) := by
  rcases h : fdr s.p with _ | q <;>
    simp only [reportOf, h] <;>
    refine ⟨?_, ?_⟩ <;> split_ifs with hc <;> simp [hc]

/-- C8 amended: a missing experiment file is fatal before the
orthology index is built; supplying fewer than 2 experiment files is
also fatal, but only after the orthology file has been read and the
index built; with 2 or more existing files the analyses run. -/
theorem claim8_failure_order (fs : List Bool) :
    (fs.all id = false → mainTrace fs = [MainEvent.fileCheckExit]) ∧
    (fs.all id = true → fs.length < 2 →
      mainTrace fs = [MainEvent.buildIndex, MainEvent.insufficientExit]) ∧
    (fs.all id = true → 1 < fs.length →
      mainTrace fs = [MainEvent.buildIndex, MainEvent.analyses]) := by
  refine ⟨?_, ?_, ?_⟩
  · intro h
    unfold mainTrace
    rw [h]
    simp
  · intro h hlen
    unfold mainTrace
    rw [h]
    have h2 : ¬ 1 < fs.length := by omega
    simp [h2]
  · intro h hlen
    unfold mainTrace
    rw [h]
    simp [hlen]

/-- C8 witness: with a single missing experiment file the run exits at
the file check, before the index is built. -/
theorem claim8_witness : mainTrace [false] = [MainEvent.fileCheckExit] :=
  (claim8_failure_order [false]).1 rfl

/-- C10 amended: the sign-only fold-change value is `logfc/|logfc|`
computed under numpy float64 semantics: +1 for positive, -1 for
negative, and NaN (not a raised error) for a fold change of exactly 0;
the comparison is not aborted. -/
theorem claim10_sign_semantics (q : ℚ) :
    bitfc q = if q = 0 then NpVal.nan else
      if 0 < q then NpVal.num 1 else NpVal.num (-1) := by
  unfold bitfc npDiv
  rcases lt_trichotomy q 0 with hlt | heq | hgt
  · have habs : |q| = -q := abs_of_neg hlt
    have hq0 : q ≠ 0 := ne_of_lt hlt
    have habs0 : |q| ≠ 0 := abs_ne_zero.mpr hq0
    rw [if_neg habs0, if_neg hq0, if_neg (not_lt.mpr (le_of_lt hlt)), habs,
      div_neg, div_self hq0]
  · subst heq
    simp
  · have habs : |q| = q := abs_of_pos hgt
    have hq0 : q ≠ 0 := ne_of_gt hgt
    have habs0 : |q| ≠ 0 := abs_ne_zero.mpr hq0
    rw [if_neg habs0, if_neg hq0, if_pos hgt, habs, div_self hq0]

/-- A successful pair step returns exactly the concordant-significant
set of the specification formula. -/
theorem pairStep_ok_eq (t1 t2 : Tbl) (g : Finset String)
    (h : pairStep t1 t2 = Except.ok g) : g = concordantSigSpec t1 t2 := by
  unfold pairStep at h
  split at h
  · exact absurd h (by simp)
  · split at h
    · exact absurd h (by simp)
    · split at h
      · exact absurd h (by simp)
      · simp only [Except.ok.injEq] at h
        rw [← h]
        rfl

/-- A successful geneset accumulation is the list of per-pair
concordant-significant sets. -/
theorem collectGenesets_ok_eq :
    ∀ (l : List ((String × Tbl) × (String × Tbl))) (gs : List (Finset String)),
      collectGenesets l = Except.ok gs →
      gs = l.map (fun p => concordantSigSpec p.1.2 p.2.2) := by
  intro l
  induction l with
  | nil =>
    intro gs h
    simp only [collectGenesets, Except.ok.injEq] at h
    rw [← h, List.map_nil]
  | cons p rest ih =>
    intro gs h
    unfold collectGenesets at h
    cases hp : pairStep p.1.2 p.2.2 with
    | error e => rw [hp] at h; exact absurd h (by simp)
    | ok g =>
      rw [hp] at h
      cases hr : collectGenesets rest with
      | error e => rw [hr] at h; exact absurd h (by simp)
      | ok gs2 =>
        rw [hr] at h
        simp only [Except.ok.injEq] at h
        rw [← h, List.map_cons]
        exact List.cons_eq_cons.mpr ⟨pairStep_ok_eq _ _ _ hp, ih gs2 hr⟩

/-- Membership in a left fold of finite-set intersections. -/
theorem mem_foldl_inter (x : String) :
    ∀ (l : List (Finset String)) (init : Finset String),
      x ∈ l.foldl (fun a b => a ∩ b) init ↔ x ∈ init ∧ ∀ y ∈ l, x ∈ y := by
  intro l
  induction l with
  | nil => intro init; simp
  | cons g rest ih =>
    intro init
    rw [List.foldl_cons, ih (init ∩ g)]
    simp only [Finset.mem_inter, List.mem_cons]
    constructor
    · rintro ⟨⟨h1, h2⟩, h3⟩
      refine ⟨h1, ?_⟩
      rintro y (rfl | hy)
      · exact h2
      · exact h3 y hy
    · rintro ⟨h1, h2⟩
      exact ⟨⟨h1, h2 g (Or.inl rfl)⟩, fun y hy => h2 y (Or.inr hy)⟩

/-- C1: whenever the pairwise run completes, the returned
`common_to_all` set contains exactly the orthologs lying in the
concordant-significant set
`(sig_pos_A ∩ sig_pos_B) ∪ (sig_neg_A ∩ sig_neg_B)` of every processed
ordered pair of distinct experiments. -/
theorem claim1_common_to_all_is_pair_intersection (exps : List (String × Tbl))
    (s : Finset String) (h : pairwise_comparisons exps = Except.ok s) (x : String) :
    x ∈ s ↔ ∀ p ∈ pairsOf exps, x ∈ concordantSigSpec p.1.2 p.2.2 := by
  unfold pairwise_comparisons at h
  cases hc : collectGenesets (pairsOf exps) with
  | error e => rw [hc] at h; exact absurd h (by simp)
  | ok gsets =>
    rw [hc] at h
    have hm := collectGenesets_ok_eq _ _ hc
    rcases hps : pairsOf exps with _ | ⟨p, pr⟩
    · rw [hps, List.map_nil] at hm
      rw [hm] at h
      exact absurd h (by simp [commonToAll])
    · rw [hps, List.map_cons] at hm
      rw [hm] at h
      simp only [commonToAll, Except.ok.injEq] at h
      rw [← h, mem_foldl_inter]
      constructor
      · rintro ⟨h1, h2⟩ q hq
        rcases List.mem_cons.mp hq with rfl | hq2
        · exact h1
        · exact h2 _ (List.mem_map_of_mem _ hq2)
      · rintro hall
        refine ⟨hall p (List.mem_cons_self p pr), ?_⟩
        intro y hy
        rcases List.mem_map.mp hy with ⟨q, hq, rfl⟩
        exact hall q (List.mem_cons_of_mem p hq)

/-- C1 witness: on a concrete two-experiment run that completes, the
returned set is the intersection of both ordered pairs' concordant
significant sets. -/
theorem claim1_witness :
    ("a" ∈ ({"a"} : Finset String)) ↔
      ∀ p ∈ pairsOf c1Exps, "a" ∈ concordantSigSpec p.1.2 p.2.2 :=
  claim1_common_to_all_is_pair_intersection c1Exps {"a"} (by decide) "a"

end Degrees
